import Mathlib

set_option linter.unusedVariables false
set_option linter.unnecessarySeqFocus false

/-!
Verification of the deploid CLI toolchain core (pipeline runner, plugin
loader, configuration loader, logger) against its natural-language
specification.  The TypeScript sources are shallowly embedded: promises
that may reject are modelled as results paired with `Option JsError`,
logger invocations are recorded in an explicit trace, and the ambient
module system / filesystem / image library are passed in as explicit
environments.
-/

/-- A thrown JavaScript error, modelled by its string rendering
(the code only ever observes errors via `${error}` interpolation). -/
abbrev JsError := String

/-- A trace of logger invocations: (level, message) pairs, in call order. -/
abbrev Trace := List (String × String)

/-- Models `path.join(a, b)` for the forward-slash case used throughout. -/
def pathJoin (a b : String) : String := a ++ "/" ++ b

/-- Models `path.resolve(cwd, p)` for a relative `p` against an absolute `cwd`. -/
def pathResolve (cwd p : String) : String := pathJoin cwd p

/-- Models the JavaScript `x || d` idiom on an optional string field:
`undefined` and the empty string both fall through to the default. -/
def jsStringOr (o : Option String) (d : String) : String :=
  match o with
  | some s => if s = "" then d else s
  | none => d

/-! ## Logger (packages/cli/src/core/logger.ts) -/

/-- Models `Array.prototype.indexOf`: first index of `x`, or `-1` when absent. -/
def jsIndexOf (x : String) : List String → Int
  | [] => -1
  | y :: ys =>
    if y = x then 0
    else
      let r := jsIndexOf x ys
      if r = -1 then -1 else r + 1

/-- The `order` array of `Logger.shouldLog`. -/
def levelOrder : List String := ["debug", "info", "warn", "error"]

/-- The logger class: its single piece of state is the configured minimum
level.  The TypeScript type is the union of the four level literals,
but the constructor receives an unvalidated cast of an environment
variable, so the stored value is a plain string. -/
structure Logger where
  level : String

/-- Models `Logger.shouldLog`:
`order.indexOf(level) >= order.indexOf(this.level)`. -/
def Logger.shouldLog (lg : Logger) (lvl : String) : Bool :=
  jsIndexOf lvl levelOrder ≥ jsIndexOf lg.level levelOrder

/-- Models `Logger.debug`: emit to the console (modelled as an output list)
when `shouldLog` accepts the debug level. -/
def Logger.debug (lg : Logger) (message : String) (out : List String) : List String :=
  if lg.shouldLog "debug" then out ++ ["[debug] " ++ message] else out

/-- Models `Logger.info`. -/
def Logger.info (lg : Logger) (message : String) (out : List String) : List String :=
  if lg.shouldLog "info" then out ++ ["[info] " ++ message] else out

/-- Models `Logger.warn`. -/
def Logger.warn (lg : Logger) (message : String) (out : List String) : List String :=
  if lg.shouldLog "warn" then out ++ ["[warn] " ++ message] else out

/-- Models `Logger.error`. -/
def Logger.error (lg : Logger) (message : String) (out : List String) : List String :=
  if lg.shouldLog "error" then out ++ ["[error] " ++ message] else out

/-- The module-level singleton
`new Logger(process.env.SHIPWRIGHT_LOG_LEVEL as LogLevel OR-ELSE "info")`:
a set, non-empty environment value is used as-is (unvalidated cast); an
unset or empty value (both falsy) falls back to the default "info". -/
def globalLogger (envLevel : Option String) : Logger :=
  Logger.mk (match envLevel with
    | some s => if s = "" then "info" else s
    | none => "info")

/-- The rank of a valid level in the ordering debug < info < warn < error
(specification-side yardstick for the threshold theorems). -/
def levelRank (l : String) : Nat :=
  if l = "debug" then 0 else if l = "info" then 1 else if l = "warn" then 2 else 3

/-! ## Configuration shape (packages/cli/src/core/types.ts)

Inner literal-union types (`ScreenOrientation`, `LaunchMode`, …) are
modelled as strings; no claim inspects them. -/

inductive PackagingEngine
  | capacitor
  | tauri
  | twa
deriving DecidableEq

/-- The string a `PackagingEngine` literal denotes in TypeScript. -/
def PackagingEngine.tag : PackagingEngine → String
  | capacitor => "capacitor"
  | tauri => "tauri"
  | twa => "twa"

inductive WebFramework
  | vite
  | next
  | cra
  | static
deriving DecidableEq

structure PwaConfig where
  manifest : Option String := none
  serviceWorker : Option Bool := none

structure WebConfig where
  framework : WebFramework
  buildCommand : String
  webDir : String
  pwa : Option PwaConfig := none

structure SigningConfig where
  keystorePath : Option String := none
  aliasName : Option String := none  -- source field `alias`; renamed, `alias` is reserved in Lean
  storePasswordEnv : Option String := none
  keyPasswordEnv : Option String := none

structure VersionConfig where
  code : Nat
  name : String

structure DisplayConfig where
  fullscreen : Option Bool := none
  immersive : Option Bool := none
  orientation : Option String := none
  statusBarStyle : Option String := none
  statusBarHidden : Option Bool := none
  navigationBarHidden : Option Bool := none
  windowSoftInputMode : Option String := none

structure LaunchConfig where
  launchMode : Option String := none
  taskAffinity : Option String := none
  allowBackup : Option Bool := none
  allowClearUserData : Option Bool := none

structure BuildConfig where
  enableProguard : Option Bool := none
  enableMultidex : Option Bool := none
  minifyEnabled : Option Bool := none
  shrinkResources : Option Bool := none
  buildType : Option String := none

structure PerformanceConfig where
  hardwareAccelerated : Option Bool := none
  largeHeap : Option Bool := none

structure AndroidConfig where
  packaging : PackagingEngine
  targetSdk : Option Nat := none
  minSdk : Option Nat := none
  permissions : Option (List String) := none
  signing : Option SigningConfig := none
  version : Option VersionConfig := none
  display : Option DisplayConfig := none
  launch : Option LaunchConfig := none
  build : Option BuildConfig := none
  performance : Option PerformanceConfig := none

structure AssetsConfig where
  source : String
  output : Option String := none

structure PlayPublishConfig where
  track : Option String := none
  serviceAccountJson : Option String := none

structure GithubPublishConfig where
  repo : String
  draft : Option Bool := none

structure PublishConfig where
  play : Option PlayPublishConfig := none
  github : Option GithubPublishConfig := none

structure ShipwrightConfig where
  appName : String
  appId : String
  web : WebConfig
  android : AndroidConfig
  assets : Option AssetsConfig := none
  publish : Option PublishConfig := none
  plugins : Option (List String) := none

/-- The example configuration shipped in the repository
(`deploid.config.js` sample). -/
def sampleConfig : ShipwrightConfig where
  appName := "MyApp"
  appId := "com.example.myapp"
  web :=
    { framework := WebFramework.vite
      buildCommand := "npm run build"
      webDir := "dist"
      pwa := some { manifest := some "public/manifest.json", serviceWorker := some true } }
  android :=
    { packaging := PackagingEngine.capacitor
      targetSdk := some 34
      minSdk := some 24
      permissions := some ["INTERNET"]
      version := some { code := 1, name := "1.0.0" } }
  assets := some { source := "assets/logo.svg", output := some "assets-gen/" }

/-! ## Pipeline runner (packages/cli/src/core/pipeline.ts) -/

/-- Models `PipelineContext` = (cwd, config, logger). -/
structure PipelineContext where
  cwd : String
  config : ShipwrightConfig
  logger : Logger

/-- A pipeline step: an async function of the context.  Its effects are
modelled as a logger-invocation trace, and a rejected promise as a
`some`-error result. -/
abbrev PipelineStep := PipelineContext → Trace → Trace × Option JsError

/-- Models `runPipeline(ctx, steps)`: `for (const step of steps) await step(ctx)`.
Each step is awaited before the next starts; a rejection of the k-th step
aborts the loop and propagates unchanged. -/
def runPipeline (ctx : PipelineContext) : List PipelineStep → Trace → Trace × Option JsError
  | [], tr => (tr, none)
  | step :: rest, tr =>
    match step ctx tr with
    | (tr₂, none) => runPipeline ctx rest tr₂
    | (tr₂, some e) => (tr₂, some e)

/-- Models `createContext(cwd, config)` (the global logger is baked in; here we
take the resolved logger as an argument). -/
def createContext (cwd : String) (config : ShipwrightConfig) (lg : Logger) : PipelineContext :=
  { cwd := cwd, config := config, logger := lg }

/-- A stub step for observing the runner, as the specification suggests
("stub steps recording an invocation counter"): it records its label `i`
in the trace and then succeeds or rejects according to `beh`. -/
def mkStep (i : Nat) (beh : Option JsError) : PipelineStep :=
  fun _ tr => (tr ++ [("invoked", toString i)], beh)

/-- A concrete context for witnesses. -/
def ctxW : PipelineContext :=
  createContext "/home/user/myapp" sampleConfig (Logger.mk "info")

/-- Concrete behaviour for the pipeline witness: step 2 rejects. -/
def behW : Nat → Option JsError :=
  fun i => if i = 2 then some "boom" else none

/-! ## Plugin loader (packages/cli/src/core/plugin-loader.ts)

`loadPlugin` is a switch over the step name; each implemented case
dynamically imports a module from a path fixed relative to the loader
itself (the bundled copy) and invokes the named factory export.  The
ambient module system is passed in as an explicit environment; it also
records what a project-local step package (under the local dependency
dependency directory) would provide, so that preference claims can be
stated. -/

/-- A value exported by a plugin module: either a zero-argument factory
returning a step, or (for `debug-network`) a function of the working
directory. -/
inductive ExportVal where
  | stepFactory (f : Unit → PipelineStep)
  | cwdFun (f : String → Trace → Trace × Option JsError)

/-- A dynamically importable module: its named exports. -/
structure PluginModule where
  exports : String → Option ExportVal

/-- The module environment seen by the loader: modules reachable from the
local dependency directory of the consuming project, and modules bundled at
paths relative to the loader file. -/
structure ModuleEnv where
  localModules : String → Option PluginModule
  bundledModules : String → Option PluginModule

/-- Bundled path used by the `assets` case. -/
def assetsPath : String := "../../plugins/assets/dist/index.js"

/-- Bundled path used by the `packaging-capacitor` case. -/
def capacitorPath : String := "../../plugins/packaging-capacitor/dist/index.js"

/-- Bundled path used by the `build-android` case. -/
def buildPath : String := "../../plugins/build-android/dist/index.js"

/-- Bundled path used by the `debug-network` case. -/
def debugPath : String := "../../plugins/debug-network/dist/index.js"

/-- Bundled path used by the `deploy-android` case. -/
def deployPath : String := "../../plugins/deploy-android/dist/index.js"

/-- Bundled path used by the `prepare-ios` case. -/
def iosPath : String := "../../plugins/prepare-ios/dist/index.js"

/-- The `const { X } = await import(p); return X();` pattern: a failed
module import rejects; a missing or non-factory export makes the call `X()`
throw at load time. -/
def importFactory (mods : String → Option PluginModule) (path exportName : String) :
    Except JsError PipelineStep :=
  match mods path with
  | none => Except.error ("Cannot find module " ++ path)
  | some m =>
    match m.exports exportName with
    | some (ExportVal.stepFactory f) => Except.ok (f ())
    | _ => Except.error ("TypeError: " ++ exportName ++ " is not a function")

/-- The `debug-network` case:
`const { debugNetwork } = await import(debugPath); return async ({ cwd }) => debugNetwork(cwd);`.
The export is only called when the returned step runs, so a missing or
non-function export surfaces as a rejection of the step, not of the load. -/
def importDebugNetwork (mods : String → Option PluginModule) : Except JsError PipelineStep :=
  match mods debugPath with
  | none => Except.error ("Cannot find module " ++ debugPath)
  | some m =>
    match m.exports "debugNetwork" with
    | some (ExportVal.cwdFun f) => Except.ok (fun ctx tr => f ctx.cwd tr)
    | _ => Except.ok (fun _ tr => (tr, some "TypeError: debugNetwork is not a function"))

/-- Models `loadPlugin(pluginName, config)`: the switch. -/
def loadPlugin (env : ModuleEnv) (pluginName : String) (config : ShipwrightConfig) :
    Except JsError PipelineStep :=
  if pluginName = "assets" then
    importFactory env.bundledModules assetsPath "assetsPlugin"
  else if pluginName = "packaging-capacitor" then
    importFactory env.bundledModules capacitorPath "packagingCapacitor"
  else if pluginName = "packaging-tauri" then
    Except.ok (fun _ tr => (tr ++ [("info", "Tauri packaging not yet implemented")], none))
  else if pluginName = "packaging-twa" then
    Except.ok (fun _ tr => (tr ++ [("info", "TWA packaging not yet implemented")], none))
  else if pluginName = "build-android" then
    importFactory env.bundledModules buildPath "buildAndroidPlugin"
  else if pluginName = "debug-network" then
    importDebugNetwork env.bundledModules
  else if pluginName = "deploy-android" then
    importFactory env.bundledModules deployPath "deployAndroid"
  else if pluginName = "prepare-ios" then
    importFactory env.bundledModules iosPath "prepareIos"
  else
    Except.error ("Unknown plugin: " ++ pluginName)

/-- The step names handled by the switch. -/
def handledPlugins : List String :=
  ["assets", "packaging-capacitor", "packaging-tauri", "packaging-twa",
   "build-android", "debug-network", "deploy-android", "prepare-ios"]

/-- Models `config.assets?.source` as a JavaScript truthiness test: present and
non-empty. -/
def hasAssetsSource (config : ShipwrightConfig) : Bool :=
  match config.assets with
  | some a => a.source != ""
  | none => false

/-- Models `loadPluginsFromConfig(config)`: start from an empty list, push the
assets step when `config.assets?.source` is truthy, then always push
`packaging-${config.android.packaging}`. -/
def loadPluginsFromConfig (env : ModuleEnv) (config : ShipwrightConfig) :
    Except JsError (List PipelineStep) :=
  let steps0 : List PipelineStep := []
  let withAssets : Except JsError (List PipelineStep) :=
    if hasAssetsSource config then
      match loadPlugin env "assets" config with
      | Except.error e => Except.error e
      | Except.ok s => Except.ok (steps0 ++ [s])
    else Except.ok steps0
  match withAssets with
  | Except.error e => Except.error e
  | Except.ok steps1 =>
    match loadPlugin env ("packaging-" ++ config.android.packaging.tag) config with
    | Except.error e => Except.error e
    | Except.ok p => Except.ok (steps1 ++ [p])

/-! ## Configuration loader (packages/cli/src/core/config.ts) -/

/-- A dynamically evaluated configuration module: the `default` export if
any, and the whole module namespace cast to the configuration shape. -/
structure ConfigModule where
  defaultExport : Option ShipwrightConfig
  namespaceObject : ShipwrightConfig

/-- Models `mod.default OR-ELSE mod` (a loaded configuration object is truthy). -/
def moduleConfig (m : ConfigModule) : ShipwrightConfig :=
  match m.defaultExport with
  | some d => d
  | none => m.namespaceObject

/-- The candidate file names of the deploid variant, in probe order. -/
def configCandidates : List String :=
  ["deploid.config.ts", "deploid.config.js", "deploid.config.mjs", "deploid.config.cjs"]

/-- The candidate file names of the shipwright variant, in probe order. -/
def shipwrightCandidates : List String :=
  ["shipwright.config.ts", "shipwright.config.js", "shipwright.config.mjs", "shipwright.config.cjs"]

/-- The `for (const filename of candidates)` loop of `loadConfig`:
probe `path.join(cwd, filename)`; on the first hit, import the module and
return `mod.default || mod`; when the loop ends, throw. -/
def loadConfigLoop (errMsg cwd : String) (fsExists : String → Bool)
    (importMod : String → ConfigModule) : List String → Except JsError ShipwrightConfig
  | [] => Except.error errMsg
  | filename :: rest =>
    if fsExists (pathJoin cwd filename) then
      Except.ok (moduleConfig (importMod (pathJoin cwd filename)))
    else
      loadConfigLoop errMsg cwd fsExists importMod rest

/-- Models `loadConfig(cwd)`, deploid variant. -/
def loadConfig (cwd : String) (fsExists : String → Bool)
    (importMod : String → ConfigModule) : Except JsError ShipwrightConfig :=
  loadConfigLoop "No deploid config found" cwd fsExists importMod configCandidates

/-- Models `loadConfig(cwd)`, shipwright variant (the older copy of the same
loader). -/
def loadConfigShipwright (cwd : String) (fsExists : String → Bool)
    (importMod : String → ConfigModule) : Except JsError ShipwrightConfig :=
  loadConfigLoop "No shipwright config found" cwd fsExists importMod shipwrightCandidates

/-! ## Assets step (packages/plugins/assets/src/index.ts)

The filesystem and the `sharp` image library are opaque external
collaborators, passed in as an environment.  A `some`-result of
`sharpToFile` models a rejected resize pipeline; a `some`-result of
`mkdirSync` models a thrown `fs.mkdirSync`. -/

structure AssetsEnv where
  fsExists : String → Bool
  mkdirSync : String → Option JsError
  sharpToFile : String → Nat → String → Option JsError

/-- The `androidSizes` table of `generateAndroidIcons`. -/
def androidSizes : List (String × Nat) :=
  [("mipmap-mdpi", 48), ("mipmap-hdpi", 72), ("mipmap-xhdpi", 96),
   ("mipmap-xxhdpi", 144), ("mipmap-xxxhdpi", 192)]

/-- The `pwaSizes` table of `generatePWAIcons`. -/
def pwaSizes : List (String × Nat) :=
  [("icon-192.png", 192), ("icon-512.png", 512), ("apple-touch-icon.png", 180)]

/-- The `faviconSizes` table of `generateFavicons`. -/
def faviconSizes : List Nat := [16, 32, 48, 64]

/-- Models `generateAndroidIcons`: per density, make the directory, resize the
source into `ic_launcher.png`, log at debug level; the first throw
propagates. -/
def generateAndroidIcons (env : AssetsEnv) (sourcePath outputDir : String) :
    List (String × Nat) → Trace → Trace × Option JsError
  | [], tr => (tr, none)
  | (name, size) :: rest, tr =>
    match env.mkdirSync (pathJoin (pathJoin outputDir "android") name) with
    | some e => (tr, some e)
    | none =>
      match env.sharpToFile sourcePath size
          (pathJoin (pathJoin (pathJoin outputDir "android") name) "ic_launcher.png") with
      | some e => (tr, some e)
      | none =>
        generateAndroidIcons env sourcePath outputDir rest
          (tr ++ [("debug", "Generated Android icon: " ++ name ++ "/ic_launcher.png (" ++
            toString size ++ "x" ++ toString size ++ ")")])

/-- Models `generatePWAIcons`. -/
def generatePWAIcons (env : AssetsEnv) (sourcePath outputDir : String) :
    List (String × Nat) → Trace → Trace × Option JsError
  | [], tr => (tr, none)
  | (name, size) :: rest, tr =>
    match env.sharpToFile sourcePath size (pathJoin outputDir name) with
    | some e => (tr, some e)
    | none =>
      generatePWAIcons env sourcePath outputDir rest
        (tr ++ [("debug", "Generated PWA icon: " ++ name ++ " (" ++
          toString size ++ "x" ++ toString size ++ ")")])

/-- Models `generateFavicons`. -/
def generateFavicons (env : AssetsEnv) (sourcePath outputDir : String) :
    List Nat → Trace → Trace × Option JsError
  | [], tr => (tr, none)
  | size :: rest, tr =>
    match env.sharpToFile sourcePath size
        (pathJoin outputDir ("favicon-" ++ toString size ++ "x" ++ toString size ++ ".png")) with
    | some e => (tr, some e)
    | none =>
      generateFavicons env sourcePath outputDir rest
        (tr ++ [("debug", "Generated favicon: favicon-" ++ toString size ++ "x" ++
          toString size ++ ".png")])

/-- The body of the `try` block of the assets step: the three generator
calls in sequence, then the completion log. -/
def assetsTryBody (env : AssetsEnv) (sourcePath outputDir : String) (tr : Trace) :
    Trace × Option JsError :=
  match generateAndroidIcons env sourcePath outputDir androidSizes tr with
  | (tr1, some e) => (tr1, some e)
  | (tr1, none) =>
    match generatePWAIcons env sourcePath outputDir pwaSizes tr1 with
    | (tr2, some e) => (tr2, some e)
    | (tr2, none) =>
      match generateFavicons env sourcePath outputDir faviconSizes tr2 with
      | (tr3, some e) => (tr3, some e)
      | (tr3, none) => (tr3 ++ [("info", "✅ Asset generation complete")], none)

/-- The step returned by `assetsPlugin()`:
guard on `config.assets?.source` (warn and return when falsy), resolve the
source and output paths, log an error and return when the source file is
missing, make the output directory, then run the generators inside
`try { … } catch (error) { logger.error(...) }` — the catch does not
re-throw. -/
def assetsStepRun (env : AssetsEnv) (ctx : PipelineContext) (tr0 : Trace) :
    Trace × Option JsError :=
  let tr := tr0 ++ [("info", "assets-plugin: generating icons and assets")]
  match ctx.config.assets with
  | none => (tr ++ [("warn", "No assets.source configured, skipping asset generation")], none)
  | some a =>
    if a.source = "" then
      (tr ++ [("warn", "No assets.source configured, skipping asset generation")], none)
    else
      let sourcePath := pathResolve ctx.cwd a.source
      let outputDir := pathResolve ctx.cwd (jsStringOr a.output "assets-gen")
      if !env.fsExists sourcePath then
        (tr ++ [("error", "Source logo not found: " ++ sourcePath)], none)
      else
        match env.mkdirSync outputDir with
        | some e => (tr, some e)
        | none =>
          match assetsTryBody env sourcePath outputDir tr with
          | (tr1, some e) => (tr1 ++ [("error", "Asset generation failed: " ++ e)], none)
          | (tr1, none) => (tr1, none)

/-- Models `assetsPlugin`: the factory export of the assets plugin module. -/
def assetsPlugin (env : AssetsEnv) : Unit → PipelineStep :=
  fun _ => fun ctx tr => assetsStepRun env ctx tr

/-! ## Capacitor packaging step (packages/plugins/packaging-capacitor/src/index.ts)

The eight awaited helpers are subprocess / filesystem orchestration
around external tools; each is abstracted as a trace transformer that may
throw. -/

structure CapacitorEnv where
  checkCapacitorInstalled : Trace → Trace × Option JsError
  initializeCapacitor : Trace → Trace × Option JsError
  syncWebAssets : Trace → Trace × Option JsError
  addAndroidPlatform : Trace → Trace × Option JsError
  updateAndroidConfig : Trace → Trace × Option JsError
  copyAndroidIcons : Trace → Trace × Option JsError
  addDeploymentScripts : Trace → Trace × Option JsError
  addPushNotificationsPlugin : Trace → Trace × Option JsError

/-- Sequential awaiting of effectful calls: the first throw aborts the
sequence and propagates. -/
def seqCalls : List (Trace → Trace × Option JsError) → Trace → Trace × Option JsError
  | [], tr => (tr, none)
  | f :: fs, tr =>
    match f tr with
    | (tr2, some e) => (tr2, some e)
    | (tr2, none) => seqCalls fs tr2

/-- The body of the `try` block of `packagingCapacitor`: the eight
helpers in order, then the completion log. -/
def capacitorBody (env : CapacitorEnv) (tr : Trace) : Trace × Option JsError :=
  match seqCalls
      [env.checkCapacitorInstalled, env.initializeCapacitor, env.syncWebAssets,
       env.addAndroidPlatform, env.updateAndroidConfig, env.copyAndroidIcons,
       env.addDeploymentScripts, env.addPushNotificationsPlugin] tr with
  | (tr1, some e) => (tr1, some e)
  | (tr1, none) => (tr1 ++ [("info", "✅ Capacitor packaging complete")], none)

/-- The step returned by `packagingCapacitor()`: log the banner, run the
body, and in the catch log `Capacitor packaging failed: ${error}` and
`throw error` — the same error is re-thrown. -/
def packagingCapacitorRun (env : CapacitorEnv) (ctx : PipelineContext) (tr0 : Trace) :
    Trace × Option JsError :=
  let tr := tr0 ++ [("info", "packaging-capacitor: wrapping " ++ ctx.config.appName ++ " for Android")]
  match capacitorBody env tr with
  | (tr1, some e) => (tr1 ++ [("error", "Capacitor packaging failed: " ++ e)], some e)
  | (tr1, none) => (tr1, none)

/-! ## Concrete environments for witnesses and counterexamples -/

/-- Sentinel step a project-local assets package would provide. -/
def localSentinelStep : PipelineStep :=
  fun _ tr => (tr ++ [("info", "assets step from the project-local package")], none)

/-- Sentinel step the bundled assets copy provides. -/
def bundledSentinelStep : PipelineStep :=
  fun _ tr => (tr ++ [("info", "assets step from the bundled copy")], none)

/-- Sentinel step the bundled capacitor copy provides. -/
def capacitorSentinelStep : PipelineStep :=
  fun _ tr => (tr ++ [("info", "capacitor step from the bundled copy")], none)

def localAssetsModule : PluginModule :=
  ⟨fun n => if n = "assetsPlugin" then some (ExportVal.stepFactory fun _ => localSentinelStep) else none⟩

def bundledAssetsModule : PluginModule :=
  ⟨fun n => if n = "assetsPlugin" then some (ExportVal.stepFactory fun _ => bundledSentinelStep) else none⟩

def bundledCapacitorModule : PluginModule :=
  ⟨fun n => if n = "packagingCapacitor" then some (ExportVal.stepFactory fun _ => capacitorSentinelStep) else none⟩

/-- A module environment in which BOTH a project-local assets package and
the bundled assets copy are present (plus the bundled capacitor copy). -/
def envBoth : ModuleEnv where
  localModules := fun p =>
    if p = "node_modules/@deploid/plugin-assets/dist/index.js" then some localAssetsModule else none
  bundledModules := fun p =>
    if p = assetsPath then some bundledAssetsModule
    else if p = capacitorPath then some bundledCapacitorModule
    else none

/-- Same bundled modules as `envBoth`, but no project-local packages. -/
def envOnlyBundled : ModuleEnv where
  localModules := fun _ => none
  bundledModules := envBoth.bundledModules

/-- A module environment with no modules at all. -/
def emptyEnv : ModuleEnv where
  localModules := fun _ => none
  bundledModules := fun _ => none

/-- Assets environment: the source logo does not exist. -/
def assetsEnvMissing : AssetsEnv where
  fsExists := fun _ => false
  mkdirSync := fun _ => none
  sharpToFile := fun _ _ _ => none

/-- Assets environment: the source exists but every resize rejects. -/
def assetsEnvFailing : AssetsEnv where
  fsExists := fun _ => true
  mkdirSync := fun _ => none
  sharpToFile := fun _ _ _ => some "Error: sharp failed"

/-- Assets environment: everything succeeds. -/
def assetsEnvOk : AssetsEnv where
  fsExists := fun _ => true
  mkdirSync := fun _ => none
  sharpToFile := fun _ _ _ => none

/-- A successful capacitor helper that leaves a debug log. -/
def capOkCall (msg : String) : Trace → Trace × Option JsError :=
  fun tr => (tr ++ [("debug", msg)], none)

/-- Capacitor environment whose second helper (initializeCapacitor)
throws. -/
def capEnvW : CapacitorEnv where
  checkCapacitorInstalled := capOkCall "Capacitor CLI found"
  initializeCapacitor := fun tr => (tr, some "Error: capacitor init failed")
  syncWebAssets := capOkCall "synced"
  addAndroidPlatform := capOkCall "platform added"
  updateAndroidConfig := capOkCall "config updated"
  copyAndroidIcons := capOkCall "icons copied"
  addDeploymentScripts := capOkCall "scripts added"
  addPushNotificationsPlugin := capOkCall "push added"

/-- A follow-up step used to observe that the pipeline continues. -/
def nextW : PipelineStep := fun _ tr => (tr ++ [("invoked", "next")], none)

/-- Filesystem for the configuration-loader witness: only
`proj/deploid.config.js` exists. -/
def fsW : String → Bool := fun p => p == pathJoin "proj" "deploid.config.js"

/-- Module table for the configuration-loader witness. -/
def importW : String → ConfigModule := fun _ => ⟨some sampleConfig, sampleConfig⟩

/-! ## Theorems -/

/-- Helper: a run of instrumented steps that all succeed appends exactly
their labels, in order, and reports no error. -/
theorem runPipeline_mkStep_ok (ctx : PipelineContext) (beh : Nat → Option JsError) :
    ∀ (l : List Nat) (tr : Trace), (∀ i ∈ l, beh i = none) →
      runPipeline ctx (l.map fun i => mkStep i (beh i)) tr
        = (tr ++ l.map fun i => (("invoked", toString i) : String × String), none)
  | [], tr, _ => by simp [runPipeline]
  | a :: l, tr, h => by
    have ha : beh a = none := h a (List.mem_cons_self a l)
    have ih := runPipeline_mkStep_ok ctx beh l
      (tr ++ [(("invoked", toString a) : String × String)])
      (fun i hi => h i (List.mem_cons_of_mem a hi))
    simp [runPipeline, mkStep, ha] at ih ⊢
    rw [ih]

/-- Helper: with a succeeding prefix and a failing step `k`, the run
invokes exactly the prefix and `k`, and propagates `k`-s error. -/
theorem runPipeline_mkStep_fail (ctx : PipelineContext) (beh : Nat → Option JsError)
    (k : Nat) (e : JsError) (hk : beh k = some e) :
    ∀ (l1 l2 : List Nat) (tr : Trace), (∀ i ∈ l1, beh i = none) →
      runPipeline ctx ((l1 ++ k :: l2).map fun i => mkStep i (beh i)) tr
        = (tr ++ (l1 ++ [k]).map fun i => (("invoked", toString i) : String × String), some e)
  | [], l2, tr, _ => by simp [runPipeline, mkStep, hk]
  | a :: l1, l2, tr, h => by
    have ha : beh a = none := h a (List.mem_cons_self a l1)
    have ih := runPipeline_mkStep_fail ctx beh k e hk l1 l2
      (tr ++ [(("invoked", toString a) : String × String)])
      (fun i hi => h i (List.mem_cons_of_mem a hi))
    simp [runPipeline, mkStep, ha] at ih ⊢
    rw [ih]

/-- C1: the pipeline runner invokes the supplied steps strictly in the
supplied order (trace of an all-succeeding run is exactly the labels in
order, with no error), and when the step labelled `k` rejects after a
succeeding prefix `l1`, exactly the prefix and `k` are invoked — no step
of the suffix `l2` ever starts — and the very error `e` propagates to
the caller untransformed. -/
theorem runPipeline_order_and_abort (ctx : PipelineContext) (beh : Nat → Option JsError)
    (l1 l2 : List Nat) (k : Nat) (e : JsError)
    (h1 : ∀ i ∈ l1, beh i = none) (hk : beh k = some e) :
    runPipeline ctx (l1.map fun i => mkStep i (beh i)) []
      = (l1.map fun i => (("invoked", toString i) : String × String), none)
    ∧ runPipeline ctx ((l1 ++ k :: l2).map fun i => mkStep i (beh i)) []
      = ((l1 ++ [k]).map fun i => (("invoked", toString i) : String × String), some e) := by
  constructor
  · simpa using runPipeline_mkStep_ok ctx beh l1 [] h1
  · simpa using runPipeline_mkStep_fail ctx beh k e hk l1 l2 [] h1

/-- Witness for C1: five stub steps, the third rejects with "boom". -/
theorem runPipeline_order_and_abort_witness :
    runPipeline ctxW ([0, 1].map fun i => mkStep i (behW i)) []
      = ([0, 1].map fun i => (("invoked", toString i) : String × String), none)
    ∧ runPipeline ctxW (([0, 1] ++ 2 :: [3, 4]).map fun i => mkStep i (behW i)) []
      = (([0, 1] ++ [2]).map fun i => (("invoked", toString i) : String × String), some "boom") :=
  runPipeline_order_and_abort ctxW behW [0, 1] [3, 4] 2 "boom" (by decide) (by decide)

/-- Helper: `indexOf` never returns less than `-1`. -/
theorem jsIndexOf_ge_neg_one (x : String) : ∀ xs : List String, -1 ≤ jsIndexOf x xs
  | [] => by simp [jsIndexOf]
  | y :: ys => by
    by_cases h : y = x
    · simp [jsIndexOf, h]
    · have ih := jsIndexOf_ge_neg_one x ys
      by_cases hr : jsIndexOf x ys = -1
      · simp [jsIndexOf, h, hr]
      · simp [jsIndexOf, h, hr]
        omega

/-- Helper: `indexOf` returns `-1` exactly on absent elements. -/
theorem jsIndexOf_eq_neg_one_of_not_mem (x : String) :
    ∀ xs : List String, x ∉ xs → jsIndexOf x xs = -1
  | [], _ => by simp [jsIndexOf]
  | y :: ys, h => by
    have hy : y ≠ x := fun hyx => h (hyx ▸ List.mem_cons_self y ys)
    have ih := jsIndexOf_eq_neg_one_of_not_mem x ys (fun hm => h (List.mem_cons_of_mem y hm))
    simp [jsIndexOf, hy, ih]

/-- C4: for every configured minimum level `m` and call level `l` in
{debug, info, warn, error}, `shouldLog` accepts exactly when `l` is at or
above `m` in the ordering debug < info < warn < error, and each of the
four write methods emits its formatted line exactly under that
condition (16 combinations). -/
theorem logger_threshold (m message : String) (out : List String) (hm : m ∈ levelOrder) :
    (∀ l ∈ levelOrder, ((Logger.mk m).shouldLog l = true ↔ levelRank m ≤ levelRank l))
    ∧ (Logger.mk m).debug message out
        = (if levelRank m ≤ levelRank "debug" then out ++ ["[debug] " ++ message] else out)
    ∧ (Logger.mk m).info message out
        = (if levelRank m ≤ levelRank "info" then out ++ ["[info] " ++ message] else out)
    ∧ (Logger.mk m).warn message out
        = (if levelRank m ≤ levelRank "warn" then out ++ ["[warn] " ++ message] else out)
    ∧ (Logger.mk m).error message out
        = (if levelRank m ≤ levelRank "error" then out ++ ["[error] " ++ message] else out) := by
  fin_cases hm <;>
    refine ⟨fun l hl => ?_, ?_, ?_, ?_, ?_⟩ <;>
    first
      | (fin_cases hl <;> decide)
      | (simp [Logger.debug, Logger.info, Logger.warn, Logger.error, levelRank] <;> decide)

/-- Witness for C4 at minimum level "warn". -/
theorem logger_threshold_witness :
    (∀ l ∈ levelOrder, ((Logger.mk "warn").shouldLog l = true ↔ levelRank "warn" ≤ levelRank l))
    ∧ (Logger.mk "warn").debug "x" []
        = (if levelRank "warn" ≤ levelRank "debug" then [] ++ ["[debug] " ++ "x"] else [])
    ∧ (Logger.mk "warn").info "x" []
        = (if levelRank "warn" ≤ levelRank "info" then [] ++ ["[info] " ++ "x"] else [])
    ∧ (Logger.mk "warn").warn "x" []
        = (if levelRank "warn" ≤ levelRank "warn" then [] ++ ["[warn] " ++ "x"] else [])
    ∧ (Logger.mk "warn").error "x" []
        = (if levelRank "warn" ≤ levelRank "error" then [] ++ ["[error] " ++ "x"] else []) :=
  logger_threshold "warn" "x" [] (by decide)

/-- C10: a logger constructed with a minimum level outside
{debug, info, warn, error} — as happens when the log-level environment
variable holds an unrecognized non-empty value, cast without
validation — accepts every call level, so all four write methods emit
(including debug); there is no fallback to the default "info"
threshold. -/
theorem invalid_level_emits_everything (m : String) (hm : m ∉ levelOrder)
    (l message : String) (out : List String) :
    (Logger.mk m).shouldLog l = true
    ∧ (Logger.mk m).debug message out = out ++ ["[debug] " ++ message]
    ∧ (Logger.mk m).info message out = out ++ ["[info] " ++ message]
    ∧ (Logger.mk m).warn message out = out ++ ["[warn] " ++ message]
    ∧ (Logger.mk m).error message out = out ++ ["[error] " ++ message]
    ∧ (m ≠ "" → globalLogger (some m) = Logger.mk m) := by
  have hsl : ∀ b : String, (Logger.mk m).shouldLog b = true := by
    intro b
    have h1 := jsIndexOf_eq_neg_one_of_not_mem m levelOrder hm
    have h2 := jsIndexOf_ge_neg_one b levelOrder
    simp [Logger.shouldLog, h1]
    exact h2
  refine ⟨hsl l, ?_, ?_, ?_, ?_, fun hne => ?_⟩
  · simp [Logger.debug, hsl]
  · simp [Logger.info, hsl]
  · simp [Logger.warn, hsl]
  · simp [Logger.error, hsl]
  · simp [globalLogger, hne]

/-- Witness for C10 with the unrecognized level "verbose". -/
theorem invalid_level_emits_everything_witness :
    (Logger.mk "verbose").shouldLog "debug" = true
    ∧ (Logger.mk "verbose").debug "x" [] = [] ++ ["[debug] " ++ "x"]
    ∧ (Logger.mk "verbose").info "x" [] = [] ++ ["[info] " ++ "x"]
    ∧ (Logger.mk "verbose").warn "x" [] = [] ++ ["[warn] " ++ "x"]
    ∧ (Logger.mk "verbose").error "x" [] = [] ++ ["[error] " ++ "x"]
    ∧ ("verbose" ≠ "" → globalLogger (some "verbose") = Logger.mk "verbose") :=
  invalid_level_emits_everything "verbose" (by decide) "debug" "x" []

/-- Helper: the probe loop returns the module configuration of the first
configuration. -/
theorem loadConfigLoop_found (errMsg cwd : String) (fsExists : String → Bool)
    (importMod : String → ConfigModule) (c : String) (l2 : List String) :
    ∀ l1 : List String, (∀ f ∈ l1, fsExists (pathJoin cwd f) = false) →
      fsExists (pathJoin cwd c) = true →
      loadConfigLoop errMsg cwd fsExists importMod (l1 ++ c :: l2)
        = Except.ok (moduleConfig (importMod (pathJoin cwd c)))
  | [], _, hc => by simp [loadConfigLoop, hc]
  | f :: l1, h, hc => by
    have hf : fsExists (pathJoin cwd f) = false := h f (List.mem_cons_self f l1)
    have ih := loadConfigLoop_found errMsg cwd fsExists importMod c l2 l1
      (fun g hg => h g (List.mem_cons_of_mem f hg)) hc
    simp [loadConfigLoop, hf, ih]

/-- Helper: when no candidate exists, the loop throws the message. -/
theorem loadConfigLoop_notFound (errMsg cwd : String) (fsExists : String → Bool)
    (importMod : String → ConfigModule) :
    ∀ l : List String, (∀ f ∈ l, fsExists (pathJoin cwd f) = false) →
      loadConfigLoop errMsg cwd fsExists importMod l = Except.error errMsg
  | [], _ => by simp [loadConfigLoop]
  | f :: l, h => by
    have hf : fsExists (pathJoin cwd f) = false := h f (List.mem_cons_self f l)
    have ih := loadConfigLoop_notFound errMsg cwd fsExists importMod l
      (fun g hg => h g (List.mem_cons_of_mem f hg))
    simp [loadConfigLoop, hf, ih]

/-- C2: `loadConfig` probes the four fixed candidate names in their
documented order; for the first candidate that exists it returns the
default export of the loaded module (or the whole module when there is no
default); the result is independent of anything past that candidate
(later files are never consulted); and when none of the four candidates
exists it throws the "no configuration found" error. -/
theorem loadConfig_first_found (cwd : String) (fsExists fsNone : String → Bool)
    (importMod : String → ConfigModule) (l1 l2 : List String) (c : String)
    (hsplit : configCandidates = l1 ++ c :: l2)
    (habsent : ∀ f ∈ l1, fsExists (pathJoin cwd f) = false)
    (hfound : fsExists (pathJoin cwd c) = true)
    (hnone : ∀ f ∈ configCandidates, fsNone (pathJoin cwd f) = false) :
    loadConfig cwd fsExists importMod
      = Except.ok (moduleConfig (importMod (pathJoin cwd c)))
    ∧ (∀ (fs2 : String → Bool) (im2 : String → ConfigModule),
        (∀ f ∈ l1, fs2 (pathJoin cwd f) = false) → fs2 (pathJoin cwd c) = true →
        im2 (pathJoin cwd c) = importMod (pathJoin cwd c) →
        loadConfig cwd fs2 im2 = loadConfig cwd fsExists importMod)
    ∧ loadConfig cwd fsNone importMod = Except.error "No deploid config found" := by
  refine ⟨?_, ?_, ?_⟩
  · rw [loadConfig, hsplit]
    exact loadConfigLoop_found _ cwd fsExists importMod c l2 l1 habsent hfound
  · intro fs2 im2 h2 hc2 him
    rw [loadConfig, loadConfig, hsplit]
    rw [loadConfigLoop_found _ cwd fsExists importMod c l2 l1 habsent hfound]
    rw [loadConfigLoop_found _ cwd fs2 im2 c l2 l1 h2 hc2, him]
  · rw [loadConfig]
    exact loadConfigLoop_notFound _ cwd fsNone importMod configCandidates hnone

/-- Witness for C2: only `proj/deploid.config.js` (the second candidate)
exists. -/
theorem loadConfig_first_found_witness :
    loadConfig "proj" fsW importW
      = Except.ok (moduleConfig (importW (pathJoin "proj" "deploid.config.js")))
    ∧ (∀ (fs2 : String → Bool) (im2 : String → ConfigModule),
        (∀ f ∈ ["deploid.config.ts"], fs2 (pathJoin "proj" f) = false) →
        fs2 (pathJoin "proj" "deploid.config.js") = true →
        im2 (pathJoin "proj" "deploid.config.js") = importW (pathJoin "proj" "deploid.config.js") →
        loadConfig "proj" fs2 im2 = loadConfig "proj" fsW importW)
    ∧ loadConfig "proj" (fun _ => false) importW = Except.error "No deploid config found" :=
  loadConfig_first_found "proj" fsW (fun _ => false) importW
    ["deploid.config.ts"] ["deploid.config.mjs", "deploid.config.cjs"] "deploid.config.js"
    (by decide) (by decide) (by decide) (by intro f hf; rfl)

/-- C3 counterexample: in an environment where BOTH a project-local
assets package and the bundled assets copy are present, `loadPlugin`
returns the bundled step, whose behaviour differs from the project-local
step — refuting the claim that the project-local package is preferred. -/
theorem loadPlugin_local_preference_cex :
    loadPlugin envBoth "assets" sampleConfig = Except.ok bundledSentinelStep
    ∧ envBoth.localModules "node_modules/@deploid/plugin-assets/dist/index.js"
        = some localAssetsModule
    ∧ bundledSentinelStep ctxW [] ≠ localSentinelStep ctxW [] := by
  refine ⟨rfl, rfl, ?_⟩
  decide

/-- C3 amended: `loadPlugin` never consults the project-local location at
all — its result depends only on the bundled modules — and a present
bundled assets module resolves to the step built by its factory. -/
theorem loadPlugin_bundled_only (env1 env2 : ModuleEnv) (name : String)
    (config : ShipwrightConfig)
    (h : env1.bundledModules = env2.bundledModules) :
    loadPlugin env1 name config = loadPlugin env2 name config
    ∧ (∀ (m : PluginModule) (f : Unit → PipelineStep),
        env1.bundledModules assetsPath = some m →
        m.exports "assetsPlugin" = some (ExportVal.stepFactory f) →
        loadPlugin env1 "assets" config = Except.ok (f ())) := by
  constructor
  · simp only [loadPlugin, importFactory, importDebugNetwork, h]
  · intro m f hm hf
    simp [loadPlugin, importFactory, hm, hf]

/-- Witness for the amended C3: stripping all project-local packages from
`envBoth` leaves every resolution unchanged. -/
theorem loadPlugin_bundled_only_witness :
    loadPlugin envBoth "assets" sampleConfig = loadPlugin envOnlyBundled "assets" sampleConfig
    ∧ (∀ (m : PluginModule) (f : Unit → PipelineStep),
        envBoth.bundledModules assetsPath = some m →
        m.exports "assetsPlugin" = some (ExportVal.stepFactory f) →
        loadPlugin envBoth "assets" sampleConfig = Except.ok (f ())) :=
  loadPlugin_bundled_only envBoth envOnlyBundled "assets" sampleConfig rfl

/-- C6: a step name outside the switch resolves nowhere, and `loadPlugin`
rejects with an error whose message names the requested step; no step is
returned. -/
theorem loadPlugin_unknown_error (env : ModuleEnv) (config : ShipwrightConfig)
    (name : String) (h : name ∉ handledPlugins) :
    loadPlugin env name config = Except.error ("Unknown plugin: " ++ name) := by
  simp only [handledPlugins, List.mem_cons, List.not_mem_nil, or_false, not_or] at h
  obtain ⟨h1, h2, h3, h4, h5, h6, h7, h8⟩ := h
  simp [loadPlugin, h1, h2, h3, h4, h5, h6, h7, h8]

/-- Witness for C6 with the unhandled name "publish". -/
theorem loadPlugin_unknown_error_witness :
    loadPlugin emptyEnv "publish" sampleConfig
      = Except.error ("Unknown plugin: " ++ "publish") :=
  loadPlugin_unknown_error emptyEnv sampleConfig "publish" (by decide)

/-- C7: for the engines with no implementation, `packaging-tauri` and
`packaging-twa` resolve successfully — in every module environment — to
no-op steps that log a single informational message and complete without
error. -/
theorem loadPlugin_stub_engines (env : ModuleEnv) (config : ShipwrightConfig)
    (ctx : PipelineContext) (tr : Trace) :
    ∃ sTauri sTwa : PipelineStep,
      loadPlugin env "packaging-tauri" config = Except.ok sTauri
      ∧ sTauri ctx tr = (tr ++ [("info", "Tauri packaging not yet implemented")], none)
      ∧ loadPlugin env "packaging-twa" config = Except.ok sTwa
      ∧ sTwa ctx tr = (tr ++ [("info", "TWA packaging not yet implemented")], none) :=
  ⟨fun _ tr2 => (tr2 ++ [("info", "Tauri packaging not yet implemented")], none),
   fun _ tr2 => (tr2 ++ [("info", "TWA packaging not yet implemented")], none),
   rfl, rfl, rfl, rfl⟩

/-- C5: the derived step list contains the assets step exactly when
`config.assets?.source` is truthy, and always ends with the packaging
step named `packaging-` ++ the configured engine tag; nothing else is
included and the assets step (when present) precedes the packaging
step. -/
theorem loadPluginsFromConfig_steps (env : ModuleEnv) (config : ShipwrightConfig)
    (a p : PipelineStep)
    (ha : loadPlugin env "assets" config = Except.ok a)
    (hp : loadPlugin env ("packaging-" ++ config.android.packaging.tag) config = Except.ok p) :
    loadPluginsFromConfig env config
      = Except.ok ((if hasAssetsSource config then [a] else []) ++ [p]) := by
  unfold loadPluginsFromConfig
  cases hc : hasAssetsSource config <;> simp [hc, ha, hp]

/-- Witness for C5: the sample configuration (assets source set,
capacitor engine) yields exactly [assets step, packaging step]. -/
theorem loadPluginsFromConfig_steps_witness :
    loadPluginsFromConfig envBoth sampleConfig
      = Except.ok ((if hasAssetsSource sampleConfig then [bundledSentinelStep] else [])
          ++ [capacitorSentinelStep]) :=
  loadPluginsFromConfig_steps envBoth sampleConfig bundledSentinelStep capacitorSentinelStep
    rfl rfl

/-- C8 counterexample: with the configured source file absent, the assets
step makes NO warn-level logger call at all (the message is logged
at error level), refuting the claim that a warning is logged; the step
still resolves normally. -/
theorem assets_missing_source_cex :
    (∀ p ∈ (assetsStepRun assetsEnvMissing ctxW []).1, p.1 ≠ "warn")
    ∧ (("error", "Source logo not found: " ++ pathResolve ctxW.cwd "assets/logo.svg")
        ∈ (assetsStepRun assetsEnvMissing ctxW []).1)
    ∧ (assetsStepRun assetsEnvMissing ctxW []).2 = none := by
  decide

/-- C8 amended: when the configured asset source file does not exist at
the resolved path, the assets step logs the missing-source message at
ERROR level (not warning) and returns normally — it does not throw — so
a following pipeline step still runs. -/
theorem assets_missing_source_behavior (env : AssetsEnv) (ctx : PipelineContext)
    (tr : Trace) (a : AssetsConfig) (next : PipelineStep)
    (ha : ctx.config.assets = some a) (hs : a.source ≠ "")
    (hmiss : env.fsExists (pathResolve ctx.cwd a.source) = false) :
    assetsStepRun env ctx tr
      = (tr ++ [("info", "assets-plugin: generating icons and assets"),
                ("error", "Source logo not found: " ++ pathResolve ctx.cwd a.source)], none)
    ∧ runPipeline ctx [fun c t => assetsStepRun env c t, next] tr
      = next ctx (tr ++ [("info", "assets-plugin: generating icons and assets"),
                         ("error", "Source logo not found: " ++ pathResolve ctx.cwd a.source)]) := by
  have hrun : assetsStepRun env ctx tr
      = (tr ++ [("info", "assets-plugin: generating icons and assets"),
                ("error", "Source logo not found: " ++ pathResolve ctx.cwd a.source)], none) := by
    simp [assetsStepRun, ha, hs, hmiss]
  refine ⟨hrun, ?_⟩
  simp only [runPipeline, hrun]
  rcases hnx : next ctx (tr ++ [("info", "assets-plugin: generating icons and assets"),
      ("error", "Source logo not found: " ++ pathResolve ctx.cwd a.source)]) with ⟨t2, r⟩
  cases r <;> simp [runPipeline]

/-- Witness for the amended C8. -/
theorem assets_missing_source_behavior_witness :
    assetsStepRun assetsEnvMissing ctxW []
      = ([] ++ [("info", "assets-plugin: generating icons and assets"),
                ("error", "Source logo not found: " ++ pathResolve ctxW.cwd "assets/logo.svg")], none)
    ∧ runPipeline ctxW [fun c t => assetsStepRun assetsEnvMissing c t, nextW] []
      = nextW ctxW ([] ++ [("info", "assets-plugin: generating icons and assets"),
                           ("error", "Source logo not found: " ++ pathResolve ctxW.cwd "assets/logo.svg")]) :=
  assets_missing_source_behavior assetsEnvMissing ctxW []
    { source := "assets/logo.svg", output := some "assets-gen/" } nextW rfl (by decide) rfl

/-- C9 counterexample: when every resize rejects, the assets step still
RESOLVES (it only logs the failure at error level) — refuting the claim
that a failure during asset generation makes the promise of the assets step
reject. -/
theorem assets_error_swallowed_cex :
    (assetsStepRun assetsEnvFailing ctxW []).2 = none
    ∧ (("error", "Asset generation failed: " ++ "Error: sharp failed")
        ∈ (assetsStepRun assetsEnvFailing ctxW []).1) := by
  decide

/-- C9 amended: the assets step catches every error of its generation
block — whenever the output-directory creation itself does not throw, the
step resolves normally no matter what the generators do — while the
capacitor packaging step reports a failing body once at error level and
re-throws the SAME error to the pipeline runner. -/
theorem error_policy_assets_swallow_capacitor_rethrow
    (envA : AssetsEnv) (envC : CapacitorEnv) (ctx : PipelineContext)
    (tr trb : Trace) (e : JsError)
    (hmk : ∀ d, envA.mkdirSync d = none)
    (hbody : capacitorBody envC
        (tr ++ [("info", "packaging-capacitor: wrapping " ++ ctx.config.appName ++ " for Android")])
      = (trb, some e)) :
    (assetsStepRun envA ctx tr).2 = none
    ∧ packagingCapacitorRun envC ctx tr
      = (trb ++ [("error", "Capacitor packaging failed: " ++ e)], some e) := by
  constructor
  · cases hA : ctx.config.assets with
    | none => simp [assetsStepRun, hA]
    | some a =>
      by_cases hs : a.source = ""
      · simp [assetsStepRun, hA, hs]
      · by_cases hf : envA.fsExists (pathResolve ctx.cwd a.source)
        · simp only [assetsStepRun, hA, hs, hf]
          simp only [hmk]
          rcases assetsTryBody envA (pathResolve ctx.cwd a.source)
              (pathResolve ctx.cwd (jsStringOr a.output "assets-gen"))
              (tr ++ [("info", "assets-plugin: generating icons and assets")]) with ⟨tr1, r⟩
          cases r <;> simp
        · simp [assetsStepRun, hA, hs, hf]
  · simp [packagingCapacitorRun, hbody]

/-- Witness for the amended C9: all asset-environment directory creation
succeeds, and a capacitor body whose second helper throws. -/
theorem error_policy_witness :
    (assetsStepRun assetsEnvOk ctxW []).2 = none
    ∧ packagingCapacitorRun capEnvW ctxW []
      = (([] ++ [("info", "packaging-capacitor: wrapping " ++ ctxW.config.appName ++ " for Android")]
            ++ [("debug", "Capacitor CLI found")])
          ++ [("error", "Capacitor packaging failed: " ++ "Error: capacitor init failed")],
         some "Error: capacitor init failed") :=
  error_policy_assets_swallow_capacitor_rethrow assetsEnvOk capEnvW ctxW []
    (([] ++ [("info", "packaging-capacitor: wrapping " ++ ctxW.config.appName ++ " for Android")]
        ++ [("debug", "Capacitor CLI found")]))
    "Error: capacitor init failed" (fun _ => rfl) (by decide)
